import Mathlib

/-!
Verification of the SAP Notes MCP server core (authenticator and fallback
retrieval engine) against its natural-language specification.

The TypeScript sources `src/auth.ts` and `src/sap-notes-api.ts` are shallowly
embedded below.  JavaScript strings become `String`, optional fields become
`Option String` (with `none` for `undefined`), and JavaScript truthiness of a
string value is `strTruthy`.  Library capabilities that the code merely calls
(the regex engine, `JSON.parse`, Playwright page queries) are modelled by
passing their observable results as explicit arguments; every piece of control
flow and field selection logic is translated directly from the source.
-/

/-- Truthiness of a JavaScript string-or-undefined value: `undefined` and the
empty string are falsy, every other string is truthy. -/
def strTruthy : Option String → Bool
  | none => false
  | some s => s ≠ ""

/-- JavaScript `a || b` for two string-or-undefined values: returns `a` when it
is truthy, otherwise returns `b` unchanged. -/
def jsOrOpt (a b : Option String) : Option String :=
  if strTruthy a then a else b

/-- First truthy value in a chain `x1 || x2 || ... || xn`, or `none` when every
link is falsy. -/
def firstTruthyO : List (Option String) → Option String
  | [] => none
  | x :: rest => if strTruthy x then x else firstTruthyO rest

/-- JavaScript chain `x1 || x2 || ... || dflt` ending in a definite string
default. -/
def firstTruthyD (xs : List (Option String)) (dflt : String) : String :=
  match firstTruthyO xs with
  | some s => s
  | none => dflt

/-- JavaScript `String.prototype.trim()`: strip whitespace from both ends. -/
def jsTrim (s : String) : String :=
  ⟨((s.data.dropWhile Char.isWhitespace).reverse.dropWhile Char.isWhitespace).reverse⟩

/-- JavaScript `String.prototype.includes(pat)`: substring containment. -/
def strIncludes (s pat : String) : Bool :=
  (List.range (s.data.length + 1)).any (fun i => pat.data.isPrefixOf (s.data.drop i))

/-- Test of the note-id regex `^\d{6,8}$`: the whole string is 6 to 8 digits. -/
def testNoteIdPattern (s : String) : Bool :=
  6 ≤ s.data.length && s.data.length ≤ 8 && s.data.all Char.isDigit

/-- Affected software component row extracted from a `SupportPackage.Items`
entry (interface `SapNoteDetail.affectedVersions` element in
`sap-notes-api.ts`). -/
structure AffectedVersion where
  component : String
  version : String
  supportPackage : String
deriving Repr, DecidableEq

/-- Search result record (interface `SapNoteResult` in `sap-notes-api.ts`). -/
structure SapNoteResult where
  id : String
  title : String
  summary : String
  language : String
  releaseDate : String
  component : Option String
  url : String
deriving Repr, DecidableEq

/-- Search response (interface `SapNoteSearchResponse` in
`sap-notes-api.ts`). -/
structure SapNoteSearchResponse where
  results : List SapNoteResult
  totalResults : Nat
  query : String
deriving Repr, DecidableEq

/-- Detail record (interface `SapNoteDetail` in `sap-notes-api.ts`). -/
structure SapNoteDetail where
  id : String
  title : String
  summary : String
  content : String
  language : String
  releaseDate : String
  component : Option String
  priority : Option String
  category : Option String
  url : String
  cvssScore : Option String
  cvssVector : Option String
  affectedVersions : Option (List AffectedVersion)
deriving Repr, DecidableEq

/-- Base of every note URL built by the retrieval engine. -/
def noteUrlBase : String := "https://launchpad.support.sap.com/#/notes/"

/-- Fields of an OData result item read by `mapToSapNoteDetail`
(`sap-notes-api.ts` lines 1177-1218).  Each field is `none` when the
corresponding JSON property is absent. -/
structure ODataItem where
  SapNote : Option String := none
  Id : Option String := none
  id : Option String := none
  Title : Option String := none
  title : Option String := none
  Summary : Option String := none
  summary : Option String := none
  Description : Option String := none
  Content : Option String := none
  content : Option String := none
  Text : Option String := none
  Language : Option String := none
  language : Option String := none
  ReleaseDate : Option String := none
  releaseDate : Option String := none
  CreationDate : Option String := none
  Component : Option String := none
  component : Option String := none
  Priority : Option String := none
  priority : Option String := none
  Category : Option String := none
  category : Option String := none
  CvssScore : Option String := none
  cvssScore : Option String := none
  CVSSScore : Option String := none
  CvssVector : Option String := none
  cvssVector : Option String := none
  CVSSVector : Option String := none
deriving Repr, DecidableEq

/-- Embedding of `mapToSapNoteDetail(item, noteId)` (`sap-notes-api.ts` lines
1177-1218).  `cvssScoreMatch` is the capture group of
`contentStr.match(/CVSS(?:\s+Base\s+Score)?[\s:]+(\d+\.?\d*)/i)` and
`cvssVectorMatch` the full match of `contentStr.match(/CVSS:3\.\d\/[A-Z:\/]+/i)`,
both supplied by the regex engine on the content string assembled below. -/
def mapToSapNoteDetail (item : ODataItem) (noteId : String)
    (cvssScoreMatch cvssVectorMatch : Option String) : SapNoteDetail :=
  let contentStr := firstTruthyD [item.Content, item.content, item.Text, item.summary] ""
  let cvssScore :=
    match firstTruthyO [item.CvssScore, item.cvssScore, item.CVSSScore] with
    | some s => some s
    | none => cvssScoreMatch
  let cvssVector :=
    match firstTruthyO [item.CvssVector, item.cvssVector, item.CVSSVector] with
    | some v => some v
    | none => cvssVectorMatch
  { id := firstTruthyD [item.SapNote, item.Id, item.id] noteId
    title := firstTruthyD [item.Title, item.title] "Unknown Title"
    summary := firstTruthyD [item.Summary, item.summary, item.Description] "No summary available"
    content := if contentStr ≠ "" then contentStr else "Content not available"
    language := firstTruthyD [item.Language, item.language] "EN"
    releaseDate := firstTruthyD [item.ReleaseDate, item.releaseDate, item.CreationDate] "Unknown"
    component := jsOrOpt item.Component item.component
    priority := jsOrOpt item.Priority item.priority
    category := jsOrOpt item.Category item.category
    url := noteUrlBase ++ noteId
    cvssScore := cvssScore
    cvssVector := cvssVector
    affectedVersions := none }

/-- Embedding of `parseHtmlForNoteDetail(html, noteId)` (`sap-notes-api.ts`
lines 1467-1486).  `titleExtract` is the page title already extracted by the
`<title>` regex and cleaned by `.replace(/SAP\s*-?\s*/i, '').trim()` (`none`
when the regex does not match); the two cvss arguments are the regex results of
`extractCvssFromContent(html)`. -/
def parseHtmlForNoteDetail (titleExtract : Option String) (noteId : String)
    (cvssScoreMatch cvssVectorMatch : Option String) : SapNoteDetail :=
  { id := noteId
    title := match titleExtract with
      | some t => t
      | none => "SAP Note " ++ noteId
    summary := "SAP Note details available at the provided URL"
    content := "Please visit the URL for complete note content"
    language := "EN"
    releaseDate := "Unknown"
    component := none
    priority := none
    category := none
    url := noteUrlBase ++ noteId
    cvssScore := cvssScoreMatch
    cvssVector := cvssVectorMatch
    affectedVersions := none }

/-- Fields of a generic raw-notes JSON body as read by `parseRawNoteDetail`
and the generic Playwright branches (`sap-notes-api.ts` lines 1540-1611,
1820-1841, 1915-1936).  The source field `Type` is embedded as `TypeF`. -/
structure RawJson where
  SapNote : Option String := none
  id : Option String := none
  noteId : Option String := none
  Content : Option String := none
  content : Option String := none
  Text : Option String := none
  LongText : Option String := none
  Html : Option String := none
  Description : Option String := none
  Title : Option String := none
  title : Option String := none
  ShortText : Option String := none
  Summary : Option String := none
  summary : Option String := none
  Abstract : Option String := none
  abstract : Option String := none
  Language : Option String := none
  language : Option String := none
  ReleaseDate : Option String := none
  releaseDate : Option String := none
  CreationDate : Option String := none
  Component : Option String := none
  component : Option String := none
  Priority : Option String := none
  priority : Option String := none
  Category : Option String := none
  category : Option String := none
  TypeF : Option String := none
  CvssScore : Option String := none
  cvssScore : Option String := none
  CVSSScore : Option String := none
  CvssVector : Option String := none
  cvssVector : Option String := none
  CVSSVector : Option String := none
deriving Repr, DecidableEq

/-- Content string of the basic redirect-page result built by
`parseRawNoteDetail` (`sap-notes-api.ts` lines 1596-1606). -/
def redirectNoteContent (noteId : String) : String :=
  "This SAP Note exists but its content requires browser navigation to access.\n\nTo view the complete note content:\n1. Visit: https://launchpad.support.sap.com/#/notes/" ++ noteId ++ "\n2. Or access through: https://me.sap.com with your SAP credentials\n\nThe note was successfully located but content extraction requires additional authentication steps."

/-- Embedding of `parseRawNoteDetail(response, noteId)` (`sap-notes-api.ts`
lines 1540-1611).  `parsed` is the result of `JSON.parse(responseText)`
(`none` when parsing throws), `responseText` the response body.  The
`content*Match` arguments are the regex-engine results on the content string
of the JSON branch, and the `html*` arguments feed the final
`parseHtmlForNoteDetail(responseText, noteId)` fallback. -/
def parseRawNoteDetail (parsed : Option RawJson) (responseText : String)
    (noteId : String) (contentScoreMatch contentVectorMatch : Option String)
    (htmlTitleExtract htmlScoreMatch htmlVectorMatch : Option String) :
    Option SapNoteDetail :=
  let fallthrough : Option SapNoteDetail :=
    if strIncludes responseText "fragmentAfterLogin" ||
        strIncludes responseText "document.cookie" then
      if testNoteIdPattern noteId then
        some
          { id := noteId
            title := "SAP Note " ++ noteId
            summary := "Note found via raw API - full content requires browser access"
            content := redirectNoteContent noteId
            language := "EN"
            releaseDate := "Unknown"
            component := none
            priority := none
            category := none
            url := noteUrlBase ++ noteId
            cvssScore := none
            cvssVector := none
            affectedVersions := none }
      else
        some (parseHtmlForNoteDetail htmlTitleExtract noteId htmlScoreMatch htmlVectorMatch)
    else
      some (parseHtmlForNoteDetail htmlTitleExtract noteId htmlScoreMatch htmlVectorMatch)
  match parsed with
  | some j =>
    if strTruthy j.SapNote || strTruthy j.id || strTruthy j.noteId then
      let content := firstTruthyD [j.Content, j.content, j.Text, j.LongText, j.Html]
        "Note content available at URL"
      let cvssScore :=
        match firstTruthyO [j.CvssScore, j.cvssScore, j.CVSSScore] with
        | some s => some s
        | none => contentScoreMatch
      let cvssVector :=
        match firstTruthyO [j.CvssVector, j.cvssVector, j.CVSSVector] with
        | some v => some v
        | none => contentVectorMatch
      some
        { id := firstTruthyD [j.SapNote, j.id, j.noteId] noteId
          title := firstTruthyD [j.Title, j.title, j.ShortText] ("SAP Note " ++ noteId)
          summary := firstTruthyD [j.Summary, j.summary, j.Abstract, j.abstract] "SAP Note details"
          content := content
          language := firstTruthyD [j.Language, j.language] "EN"
          releaseDate := firstTruthyD [j.ReleaseDate, j.releaseDate, j.CreationDate] "Unknown"
          component := jsOrOpt j.Component j.component
          priority := jsOrOpt j.Priority j.priority
          category := jsOrOpt j.Category (jsOrOpt j.category j.TypeF)
          url := noteUrlBase ++ noteId
          cvssScore := cvssScore
          cvssVector := cvssVector
          affectedVersions := none }
    else
      fallthrough
  | none => fallthrough

/-- Long-form to single-letter mapping for the Attack Vector metric row
(`sap-notes-api.ts` line 1411). -/
def avMap : List (String × String) :=
  [("Network", "N"), ("Adjacent", "A"), ("Local", "L"), ("Physical", "P")]

/-- Long-form to single-letter mapping for Attack Complexity (line 1412). -/
def acMap : List (String × String) := [("Low", "L"), ("High", "H")]

/-- Long-form to single-letter mapping for Privileges Required (line 1413). -/
def prMap : List (String × String) := [("None", "N"), ("Low", "L"), ("High", "H")]

/-- Long-form to single-letter mapping for User Interaction (line 1414). -/
def uiMap : List (String × String) := [("None", "N"), ("Required", "R")]

/-- Long-form to single-letter mapping for Scope (line 1415). -/
def sMap : List (String × String) := [("Unchanged", "U"), ("Changed", "C")]

/-- Long-form to single-letter mapping for Confidentiality, Integrity and
Availability (lines 1416-1418, all identical). -/
def ciaMap : List (String × String) := [("None", "N"), ("Low", "L"), ("High", "H")]

/-- Resolution of one metric row (`sap-notes-api.ts` lines 1421-1444): the
displayed cell value is trimmed and the first map entry whose long form is
contained in it yields the single-letter code. -/
def mapMetricValue (map : List (String × String)) (cellValue : String) : Option String :=
  match map.find? (fun p => strIncludes (jsTrim cellValue) p.1) with
  | some p => some p.2
  | none => none

/-- Displayed second-cell text of each named metric row in the CVSS table, as
read by `extractCvssFromPage`; a field is `none` when the row is not visible
or has fewer than two cells. -/
structure MetricCells where
  attackVector : Option String := none
  attackComplexity : Option String := none
  privilegesRequired : Option String := none
  userInteraction : Option String := none
  scope : Option String := none
  confidentiality : Option String := none
  integrity : Option String := none
  availability : Option String := none
deriving Repr, DecidableEq

/-- Resolved single-letter code of the AV component, if any. -/
def resolvedAV (c : MetricCells) : Option String := c.attackVector.bind (mapMetricValue avMap)

/-- Resolved single-letter code of the AC component, if any. -/
def resolvedAC (c : MetricCells) : Option String := c.attackComplexity.bind (mapMetricValue acMap)

/-- Resolved single-letter code of the PR component, if any. -/
def resolvedPR (c : MetricCells) : Option String := c.privilegesRequired.bind (mapMetricValue prMap)

/-- Resolved single-letter code of the UI component, if any. -/
def resolvedUI (c : MetricCells) : Option String := c.userInteraction.bind (mapMetricValue uiMap)

/-- Resolved single-letter code of the S component, if any. -/
def resolvedS (c : MetricCells) : Option String := c.scope.bind (mapMetricValue sMap)

/-- Resolved single-letter code of the C component, if any. -/
def resolvedC (c : MetricCells) : Option String := c.confidentiality.bind (mapMetricValue ciaMap)

/-- Resolved single-letter code of the I component, if any. -/
def resolvedI (c : MetricCells) : Option String := c.integrity.bind (mapMetricValue ciaMap)

/-- Resolved single-letter code of the A component, if any. -/
def resolvedA (c : MetricCells) : Option String := c.availability.bind (mapMetricValue ciaMap)

/-- Number of keys of the `vectorComponents` object after the metric loop,
i.e. how many of the 8 metric rows were resolved. -/
def vectorComponentCount (c : MetricCells) : Nat :=
  (if (resolvedAV c).isSome then 1 else 0) + (if (resolvedAC c).isSome then 1 else 0) +
  (if (resolvedPR c).isSome then 1 else 0) + (if (resolvedUI c).isSome then 1 else 0) +
  (if (resolvedS c).isSome then 1 else 0) + (if (resolvedC c).isSome then 1 else 0) +
  (if (resolvedI c).isSome then 1 else 0) + (if (resolvedA c).isSome then 1 else 0)

/-- Vector construction of `extractCvssFromPage` (`sap-notes-api.ts` lines
1446-1452): the CVSS 3.0 vector string is built only when all 8 components
were resolved, otherwise `undefined` is kept. -/
def buildCvssVector (c : MetricCells) : Option String :=
  if vectorComponentCount c ≥ 8 then
    some ("CVSS:3.0/AV:" ++ (resolvedAV c).getD "undefined" ++
      "/AC:" ++ (resolvedAC c).getD "undefined" ++
      "/PR:" ++ (resolvedPR c).getD "undefined" ++
      "/UI:" ++ (resolvedUI c).getD "undefined" ++
      "/S:" ++ (resolvedS c).getD "undefined" ++
      "/C:" ++ (resolvedC c).getD "undefined" ++
      "/I:" ++ (resolvedI c).getD "undefined" ++
      "/A:" ++ (resolvedA c).getD "undefined")
  else
    none

/-- Embedding of `extractCvssFromPage(page, noteId)` (`sap-notes-api.ts` lines
1277-1461).  `proceed` is false exactly when no CVSS tab was found and the page
body does not even contain the text CVSS (the early return at line 1353);
`scoreFromStrategies` is the score produced by the first successful of the
three text-pattern score strategies (lines 1364-1401); `cells` holds the metric
table rows.  Returns the `cvssScore, cvssVector` pair. -/
def extractCvssFromPage (proceed : Bool) (scoreFromStrategies : Option String)
    (cells : MetricCells) : Option String × Option String :=
  if !proceed then (none, none)
  else (scoreFromStrategies, buildCvssVector cells)

/-- Outcome of the tab-extraction call inside `enhanceWithCvssFromTab`: either
the pair returned by `extractCvssFromPage` or a thrown error. -/
inductive TabExtractOutcome where
  | ok (cvssScore cvssVector : Option String)
  | threw (msg : String)
deriving Repr, DecidableEq

/-- Embedding of `enhanceWithCvssFromTab(noteDetail, page, noteId)`
(`sap-notes-api.ts` lines 1616-1648).  When both cvss fields are already
truthy the record is returned unchanged; otherwise, if tab extraction returns
at least one truthy value, both cvss fields are replaced by the extraction
results; on no data or a thrown error the record is returned unchanged. -/
def enhanceWithCvssFromTab (noteDetail : SapNoteDetail) (tab : TabExtractOutcome) :
    SapNoteDetail :=
  if strTruthy noteDetail.cvssScore && strTruthy noteDetail.cvssVector then noteDetail
  else
    match tab with
    | .ok s v =>
      if strTruthy s || strTruthy v then
        { noteDetail with cvssScore := s, cvssVector := v }
      else noteDetail
    | .threw _ => noteDetail

/-- Character class `[A-Z0-9_]` of the software-component regex. -/
def isCompChar (c : Char) : Bool :=
  (decide ('A' ≤ c) && decide (c ≤ 'Z')) || c.isDigit || c = '_'

/-- Match of `componentVersion.match(/^([A-Z0-9_]+)\s+(\d+)$/)`
(`sap-notes-api.ts` line 1253): a nonempty run of component characters, a
nonempty whitespace run, then a nonempty digit run ending the string. -/
def parseComponentVersion (s : String) : Option (String × String) :=
  let cs := s.data
  let comp := cs.takeWhile isCompChar
  let rest := cs.drop comp.length
  let ws := rest.takeWhile Char.isWhitespace
  let num := rest.drop ws.length
  if comp ≠ [] && ws ≠ [] && num ≠ [] && num.all Char.isDigit then
    some (⟨comp⟩, ⟨num⟩)
  else
    none

/-- One entry of `sapNote.SupportPackage.Items` as read by
`extractSoftwareComponents` (`sap-notes-api.ts` lines 1245-1272). -/
structure SupportPackageItem where
  SoftwareComponentVersion : Option String := none
  SupportPackage : Option String := none
deriving Repr, DecidableEq

/-- Embedding of `extractSoftwareComponents(sapNote)` (`sap-notes-api.ts`
lines 1245-1272): rows whose `SoftwareComponentVersion` matches the
component-version pattern are kept, all others are silently dropped. -/
def extractSoftwareComponents (items : List SupportPackageItem) : List AffectedVersion :=
  items.filterMap fun it =>
    (parseComponentVersion (it.SoftwareComponentVersion.getD "")).map fun p =>
      { component := p.1, version := p.2, supportPackage := it.SupportPackage.getD "" }

/-- Header block `jsonData.Response.SAPNote.Header` of the structured raw-notes
answer; each field holds `Header.X?.value`.  The source field `Type` is
embedded as `TypeF`. -/
structure NoteHeader where
  Number : Option String := none
  TypeF : Option String := none
  Language : Option String := none
  ReleasedOn : Option String := none
  SAPComponentKeyText : Option String := none
  SAPComponentKey : Option String := none
  Priority : Option String := none
  Category : Option String := none
deriving Repr, DecidableEq

/-- Structured `jsonData.Response.SAPNote` envelope of the raw-notes backend.
`CVSS_Score` is `CVSS.CVSS_Score?.value` and `CVSS_Vector` is
`CVSS.CVSS_Vector?.vectorValue` (both `none` when the `CVSS` block is
absent). -/
structure SapNoteEnvelope where
  header : NoteHeader := {}
  Title : Option String := none
  LongText : Option String := none
  CVSS_Score : Option String := none
  CVSS_Vector : Option String := none
  supportPackageItems : List SupportPackageItem := []
deriving Repr, DecidableEq

/-- Embedding of the envelope branch of `getNoteWithPlaywright`
(`sap-notes-api.ts` lines 1763-1810 and the identical HTML-body copy at lines
1858-1905).  The `content*Match` arguments are the `extractCvssFromContent`
regex results on the long text. -/
def buildNoteDetailFromEnvelope (e : SapNoteEnvelope) (noteId : String)
    (contentScoreMatch contentVectorMatch : Option String) : SapNoteDetail :=
  let content := firstTruthyD [e.LongText] "No content available"
  let cvssScore := e.CVSS_Score
  let cvssVector := e.CVSS_Vector
  let merged :=
    if !(strTruthy cvssScore) || !(strTruthy cvssVector) then
      (jsOrOpt cvssScore contentScoreMatch, jsOrOpt cvssVector contentVectorMatch)
    else (cvssScore, cvssVector)
  let affectedVersions := extractSoftwareComponents e.supportPackageItems
  { id := firstTruthyD [e.header.Number] noteId
    title := firstTruthyD [e.Title] ("SAP Note " ++ noteId)
    summary := firstTruthyD [e.header.TypeF] "SAP Knowledge Base Article"
    content := content
    language := firstTruthyD [e.header.Language] "EN"
    releaseDate := firstTruthyD [e.header.ReleasedOn] "Unknown"
    component := jsOrOpt e.header.SAPComponentKeyText e.header.SAPComponentKey
    priority := e.header.Priority
    category := e.header.Category
    url := noteUrlBase ++ noteId
    cvssScore := merged.1
    cvssVector := merged.2
    affectedVersions := if affectedVersions.length > 0 then some affectedVersions else none }

/-- Embedding of the generic JSON branch of `getNoteWithPlaywright` for a JSON
page body (`sap-notes-api.ts` lines 1820-1837). -/
def buildNoteDetailFromGenericJson (j : RawJson) (noteId : String)
    (contentScoreMatch contentVectorMatch : Option String) : SapNoteDetail :=
  { id := firstTruthyD [j.SapNote, j.id] noteId
    title := firstTruthyD [j.Title, j.title, j.ShortText] ("SAP Note " ++ noteId)
    summary := firstTruthyD [j.Summary, j.summary, j.Abstract, j.Description]
      "Note content extracted via Playwright"
    content := firstTruthyD [j.Content, j.content, j.Text, j.LongText, j.Html, j.Description]
      "Raw note data retrieved successfully"
    language := firstTruthyD [j.Language] "EN"
    releaseDate := firstTruthyD [j.ReleaseDate, j.CreationDate] "Unknown"
    component := j.Component
    priority := j.Priority
    category := jsOrOpt j.Category j.TypeF
    url := noteUrlBase ++ noteId
    cvssScore := contentScoreMatch
    cvssVector := contentVectorMatch
    affectedVersions := none }

/-- Embedding of the generic JSON branch of `getNoteWithPlaywright` for JSON
found inside the HTML body (`sap-notes-api.ts` lines 1915-1932). -/
def buildNoteDetailFromGenericJsonHtml (j : RawJson) (noteId : String)
    (contentScoreMatch contentVectorMatch : Option String) : SapNoteDetail :=
  { id := firstTruthyD [j.SapNote, j.id] noteId
    title := firstTruthyD [j.Title, j.title, j.ShortText] ("SAP Note " ++ noteId)
    summary := firstTruthyD [j.Summary, j.summary, j.Abstract] "Note extracted via Playwright"
    content := firstTruthyD [j.Content, j.content, j.Text, j.LongText, j.Html]
      "Note content available"
    language := firstTruthyD [j.Language] "EN"
    releaseDate := firstTruthyD [j.ReleaseDate, j.CreationDate] "Unknown"
    component := j.Component
    priority := j.Priority
    category := jsOrOpt j.Category j.TypeF
    url := noteUrlBase ++ noteId
    cvssScore := contentScoreMatch
    cvssVector := contentVectorMatch
    affectedVersions := none }

/-- Embedding of the heuristic DOM-extraction branch of `getNoteWithPlaywright`
(`sap-notes-api.ts` lines 1985-2004); `title`, `summary` and `content` are the
page-evaluate results. -/
def buildNoteDetailFromHtmlEval (title summary content : String) (noteId : String)
    (contentScoreMatch contentVectorMatch : Option String) : SapNoteDetail :=
  { id := noteId
    title := if title ≠ "" then title else "SAP Note " ++ noteId
    summary := if summary ≠ "" then summary else "Extracted via Playwright"
    content := if content ≠ "" then content else "Note content extracted via browser automation"
    language := "EN"
    releaseDate := "Unknown"
    component := none
    priority := none
    category := none
    url := noteUrlBase ++ noteId
    cvssScore := contentScoreMatch
    cvssVector := contentVectorMatch
    affectedVersions := none }

/-- Shape of the rendered page observed by `getNoteWithPlaywright` after
navigation: a structured envelope or generic JSON parsed from the body text, a
structured envelope or generic JSON found inside the HTML body, the heuristic
DOM extraction result, or no usable content at all. -/
inductive PwPageContent where
  | bodyEnvelope (e : SapNoteEnvelope)
  | bodyGeneric (j : RawJson)
  | htmlEnvelope (e : SapNoteEnvelope)
  | htmlGeneric (j : RawJson)
  | htmlEval (found : Bool) (title summary content : String)
  | noContent
deriving Repr

/-- Embedding of the result assembly of `getNoteWithPlaywright(noteId, token)`
(`sap-notes-api.ts` lines 1763-2009) after page navigation succeeded.  `tab`
is the outcome of the tab-based enhancement call; the envelope branches skip
enhancement when both cvss fields are already present. -/
def getNoteWithPlaywright (pc : PwPageContent) (noteId : String)
    (tab : TabExtractOutcome) (contentScoreMatch contentVectorMatch : Option String) :
    Option SapNoteDetail :=
  match pc with
  | .bodyEnvelope e =>
    let nd := buildNoteDetailFromEnvelope e noteId contentScoreMatch contentVectorMatch
    if !(strTruthy nd.cvssScore) || !(strTruthy nd.cvssVector) then
      some (enhanceWithCvssFromTab nd tab)
    else some nd
  | .bodyGeneric j =>
    some (enhanceWithCvssFromTab
      (buildNoteDetailFromGenericJson j noteId contentScoreMatch contentVectorMatch) tab)
  | .htmlEnvelope e =>
    let nd := buildNoteDetailFromEnvelope e noteId contentScoreMatch contentVectorMatch
    if !(strTruthy nd.cvssScore) || !(strTruthy nd.cvssVector) then
      some (enhanceWithCvssFromTab nd tab)
    else some nd
  | .htmlGeneric j =>
    some (enhanceWithCvssFromTab
      (buildNoteDetailFromGenericJsonHtml j noteId contentScoreMatch contentVectorMatch) tab)
  | .htmlEval found title summary content =>
    if found then
      some (enhanceWithCvssFromTab
        (buildNoteDetailFromHtmlEval title summary content noteId
          contentScoreMatch contentVectorMatch) tab)
    else none
  | .noContent => none

/-- Identifier discovered while parsing, per page shape: the first present,
non-empty identifier field the corresponding builder consults
(`header.Number` for the envelope branches at `sap-notes-api.ts` lines 1797
and 1892, `SapNote` then `id` for the generic JSON branches at lines 1825 and
1920), and none for the DOM-heuristic and empty branches. -/
def discoveredId : PwPageContent → Option String
  | .bodyEnvelope e => firstTruthyO [e.header.Number]
  | .bodyGeneric j => firstTruthyO [j.SapNote, j.id]
  | .htmlEnvelope e => firstTruthyO [e.header.Number]
  | .htmlGeneric j => firstTruthyO [j.SapNote, j.id]
  | .htmlEval _ _ _ _ => none
  | .noContent => none

/-- Net outcome of one retrieval strategy inside `getNote`: a thrown error, a
null result, or a note. -/
abbrev StrategyOutcome := Except String (Option SapNoteDetail)

/-- First non-null note produced by the OData fallback-endpoint loop of
`getNote` (`sap-notes-api.ts` lines 239-251): endpoints are tried in order and
a thrown error or null result advances to the next one. -/
def firstFallbackNote : List StrategyOutcome → Option SapNoteDetail
  | [] => none
  | .ok (some n) :: _ => some n
  | .ok none :: rest => firstFallbackNote rest
  | .error _ :: rest => firstFallbackNote rest

/-- Embedding of `getNote(noteId, token)` (`sap-notes-api.ts` lines 200-261).
`pw` is the outcome of the Playwright strategy, `raw` the net outcome of the
raw HTTP strategy (null also covers a non-ok response status), `fallbacks` the
outcomes of the three OData fallback endpoints in order.  Every strategy error
is caught internally; exhaustion returns null, not an error. -/
def getNote (pw raw : StrategyOutcome) (fallbacks : List StrategyOutcome) :
    Except String (Option SapNoteDetail) :=
  match pw with
  | .ok (some n) => .ok (some n)
  | _ =>
    match raw with
    | .ok (some n) => .ok (some n)
    | _ =>
      match firstFallbackNote fallbacks with
      | some n => .ok (some n)
      | none => .ok none

/-- Embedding of `searchNotes(query, token, maxResults)` (`sap-notes-api.ts`
lines 65-195).  `primary` is the outcome of the Coveo strategy, already parsed
into results plus the resolved total count; `direct` is the outcome of the
`getNote` call made by fallback 1; `internal` is the outcome of the internal
search API of fallback 2.  Fallback 1 runs only when the trimmed query matches
the 6-to-8-digit note-id pattern. -/
def searchNotes (query : String) (primary : Except String (List SapNoteResult × Nat))
    (direct : Except String (Option SapNoteDetail))
    (internal : Except String (List SapNoteResult)) :
    Except String SapNoteSearchResponse :=
  match primary with
  | .ok pr => .ok { results := pr.1, totalResults := pr.2, query := query }
  | .error _ =>
    let fallback1 : Option SapNoteSearchResponse :=
      if testNoteIdPattern (jsTrim query) then
        match direct with
        | .ok (some note) =>
          let noteId := jsTrim query
          let item : SapNoteResult :=
            { id := noteId
              title := note.title
              summary := note.summary
              language := note.language
              releaseDate := note.releaseDate
              component := note.component
              url := note.url }
          some { results := [item], totalResults := 1, query := query }
        | _ => none
      else none
    match fallback1 with
    | some r => .ok r
    | none =>
      match internal with
      | .ok rs =>
        if rs.length > 0 then
          .ok { results := rs, totalResults := rs.length, query := query }
        else .error ("SAP Notes search failed: Search temporarily unavailable for query " ++ query)
      | .error _ =>
        .error ("SAP Notes search failed: Search temporarily unavailable for query " ++ query)

/-- Classification of a browser-launch error message as a resource-exhaustion
error (`auth.ts` line 381). -/
def isResourceExhaustion (msg : String) : Bool :=
  strIncludes msg "pthread_create" || strIncludes msg "Resource temporarily unavailable"

/-- Retry loop of the browser launch inside `SapAuthenticator.authenticate`
(`auth.ts` lines 344-427), by remaining iterations.  `outcome attempt` is
`none` when launch attempt number `attempt` succeeds and `some msg` when it
throws an error with message `msg`.  Returns the final outcome together with
the list of delays (in ms) slept between attempts: `2^attempt * 1000` before
a retry of a resource-exhaustion error, `1000` before any other retry. -/
def launchFrom (outcome : Nat → Option String) : Nat → Nat → Except String Unit × List Nat
  | 0, _ => (.error "loop exhausted", [])
  | remaining + 1, attempt =>
    match outcome attempt with
    | none => (.ok (), [])
    | some msg =>
      if isResourceExhaustion msg && decide (attempt < 3) then
        let r := launchFrom outcome remaining (attempt + 1)
        (r.1, (2 ^ attempt * 1000) :: r.2)
      else if decide (attempt ≥ 3) then (.error msg, [])
      else
        let r := launchFrom outcome remaining (attempt + 1)
        (r.1, 1000 :: r.2)

/-- Browser launch with `maxRetries = 3` starting at attempt 1 (`auth.ts`
lines 344-347). -/
def browserLaunch (outcome : Nat → Option String) : Except String Unit × List Nat :=
  launchFrom outcome 3 1

/-- In-memory authentication state of `SapAuthenticator` (`auth.ts` line 44
and interface `AuthState`). -/
structure AuthState where
  token : Option String := none
  expiresAt : Option Int := none
  isAuthenticated : Bool := false
deriving Repr, DecidableEq

/-- Buffer subtracted from the expiry before comparison (`auth.ts` lines 97
and 638): 5 minutes in milliseconds. -/
def bufferMs : Int := 5 * 60 * 1000

/-- Embedding of `isTokenValid()` (`auth.ts` lines 91-99): false when the
token or expiry is missing or falsy, else `now < expiresAt - bufferMs`. -/
def isTokenValid (now : Int) (st : AuthState) : Bool :=
  match st.token, st.expiresAt with
  | some t, some e => if t = "" then false else if e = 0 then false else decide (now < e - bufferMs)
  | _, _ => false

/-- Embedding of `invalidateAuth()` (`auth.ts` lines 83-86): reset the
in-memory state only; the on-disk token cache is not touched. -/
def invalidateAuth (_st : AuthState) : AuthState :=
  { token := none, expiresAt := none, isAuthenticated := false }

/-- On-disk token cache record (`token-cache.json`) as read by
`loadCachedToken` (`auth.ts` lines 617-627). -/
structure CachedToken where
  access_token : Option String := none
  expiresAt : Option Int := none
deriving Repr, DecidableEq

/-- Embedding of `isTokenValidFromCache(cachedToken)` (`auth.ts` lines
632-640). -/
def isTokenValidFromCache (now : Int) (ct : CachedToken) : Bool :=
  match ct.access_token, ct.expiresAt with
  | some t, some e => if t = "" then false else if e = 0 then false else decide (now < e - bufferMs)
  | _, _ => false

/-- How a run of `authenticate()` begins (`auth.ts` lines 290-303): when the
on-disk cached token is still valid it is adopted as-is and the method returns
without any login; otherwise the browser login flow starts. -/
inductive AuthFlowStart where
  | adoptCached (token : String) (expiresAt : Int)
  | freshLogin
deriving Repr, DecidableEq

/-- Embedding of the cache-adoption phase of `authenticate()` (`auth.ts` lines
290-303).  `diskCache` is the result of `loadCachedToken()` (`none` when the
cache file is absent or unreadable). -/
def authenticateStart (now : Int) (diskCache : Option CachedToken) : AuthFlowStart :=
  match diskCache with
  | some ct =>
    if isTokenValidFromCache now ct then
      .adoptCached (ct.access_token.getD "") (ct.expiresAt.getD 0)
    else .freshLogin
  | none => .freshLogin

/-- Whether the next `ensureAuthenticated()` call (with no login in flight)
performs a fresh browser login: false when the in-memory token is still valid
(no `authenticate()` run at all) and also false when `authenticate()` adopts
the still-valid on-disk cached token (`auth.ts` lines 56-77 and 290-303). -/
def nextCallStartsFreshLogin (now : Int) (st : AuthState) (diskCache : Option CachedToken) :
    Bool :=
  if isTokenValid now st then false
  else
    match authenticateStart now diskCache with
    | .adoptCached _ _ => false
    | .freshLogin => true

/-- Program counter of one task executing `ensureAuthenticated()` (`auth.ts`
lines 56-77).  The method has exactly two suspension points: awaiting a
previously stored `authPromise` at line 59 (`waitStale`) and awaiting the
login it started itself at line 69 (`waitOwn`).  Everything between two
suspension points executes atomically under the cooperative single-threaded
model. -/
inductive CallerPC where
  | entry
  | waitStale (l : Nat)
  | waitOwn (l : Nat)
  | doneOk
  | doneErr
deriving Repr, DecidableEq

/-- Global state of a `SapAuthenticator` instance together with any number of
concurrent `ensureAuthenticated` callers.  Login flows (runs of
`authenticate()`) are numbered in creation order; `settled l` is `none` while
login `l` is still in flight, `some true` once its promise resolved and
`some false` once it rejected. -/
structure AuthSys where
  authPromise : Option Nat
  authState : AuthState
  callers : Nat → CallerPC
  nextLogin : Nat
  settled : Nat → Option Bool

/-- Login `l` has been started and its promise has not settled yet. -/
def InFlight (s : AuthSys) (l : Nat) : Prop :=
  l < s.nextLogin ∧ s.settled l = none

instance (s : AuthSys) (l : Nat) : Decidable (InFlight s l) := by
  unfold InFlight; infer_instance

/-- Small-step semantics of concurrent `ensureAuthenticated()` calls
(`auth.ts` lines 56-77) plus the settlement of `authenticate()` promises
(`auth.ts` lines 290-594).  `now` is the clock reading, held fixed because an
interleaving completes quickly relative to credential lifetime.

A run of `authenticate()` mutates the shared `authState` exactly when it
settles: on success (a completed login or an adoption of the still-valid
disk cache, both of which install a credential that `isTokenValid` accepts at
that moment) it stores the credential; on failure the catch block resets the
state (`auth.ts` line 580).  The caller that started the login clears
`authPromise` at line 70 only when its await resumed normally; a rejected
await propagates the exception and leaves `authPromise` set. -/
inductive AuthStep (now : Int) : AuthSys → AuthSys → Prop where
  /-- Line 58: a caller observes a stored `authPromise` and awaits it. -/
  | observeInFlight (s : AuthSys) (i l : Nat)
      (hi : s.callers i = .entry) (hap : s.authPromise = some l) :
      AuthStep now s { s with callers := fun j => if j = i then .waitStale l else s.callers j }
  /-- Lines 58-64: no stored promise and a valid token; return it. -/
  | returnValid (s : AuthSys) (i : Nat)
      (hi : s.callers i = .entry) (hap : s.authPromise = none)
      (hv : isTokenValid now s.authState = true) :
      AuthStep now s { s with callers := fun j => if j = i then .doneOk else s.callers j }
  /-- Lines 58-69: no stored promise, invalid token; start `authenticate()`,
  store its promise and await it. -/
  | startLogin (s : AuthSys) (i : Nat)
      (hi : s.callers i = .entry) (hap : s.authPromise = none)
      (hv : isTokenValid now s.authState = false) :
      AuthStep now s
        { s with callers := fun j => if j = i then .waitOwn s.nextLogin else s.callers j
                 authPromise := some s.nextLogin
                 nextLogin := s.nextLogin + 1 }
  /-- An in-flight `authenticate()` resolves, installing a credential that is
  valid at the current clock reading. -/
  | settleSuccess (s : AuthSys) (l : Nat) (tok : String) (exp : Int)
      (hl : l < s.nextLogin) (hs : s.settled l = none)
      (hv : isTokenValid now { token := some tok, expiresAt := some exp, isAuthenticated := true } = true) :
      AuthStep now
        s
        { s with settled := fun l' => if l' = l then some true else s.settled l'
                 authState := { token := some tok, expiresAt := some exp, isAuthenticated := true } }
  /-- An in-flight `authenticate()` rejects after resetting `authState`
  (`auth.ts` line 580). -/
  | settleFailure (s : AuthSys) (l : Nat)
      (hl : l < s.nextLogin) (hs : s.settled l = none) :
      AuthStep now
        s
        { s with settled := fun l' => if l' = l then some false else s.settled l'
                 authState := { token := none, expiresAt := none, isAuthenticated := false } }
  /-- Line 59: the awaited stale promise rejected; the exception propagates
  out of `ensureAuthenticated`. -/
  | staleRejected (s : AuthSys) (i l : Nat)
      (hi : s.callers i = .waitStale l) (hs : s.settled l = some false) :
      AuthStep now s { s with callers := fun j => if j = i then .doneErr else s.callers j }
  /-- Lines 59-64: the awaited stale promise resolved and the token is now
  valid; return it. -/
  | staleResolvedValid (s : AuthSys) (i l : Nat)
      (hi : s.callers i = .waitStale l) (hs : s.settled l = some true)
      (hv : isTokenValid now s.authState = true) :
      AuthStep now s { s with callers := fun j => if j = i then .doneOk else s.callers j }
  /-- Lines 59-69: the awaited stale promise resolved but the token is not
  valid; start a new `authenticate()` (overwriting `authPromise`). -/
  | staleResolvedInvalid (s : AuthSys) (i l : Nat)
      (hi : s.callers i = .waitStale l) (hs : s.settled l = some true)
      (hv : isTokenValid now s.authState = false) :
      AuthStep now s
        { s with callers := fun j => if j = i then .waitOwn s.nextLogin else s.callers j
                 authPromise := some s.nextLogin
                 nextLogin := s.nextLogin + 1 }
  /-- Line 69: the caller's own login rejected; the exception propagates and
  `authPromise` keeps pointing at the settled, rejected promise. -/
  | ownRejected (s : AuthSys) (i l : Nat)
      (hi : s.callers i = .waitOwn l) (hs : s.settled l = some false) :
      AuthStep now s { s with callers := fun j => if j = i then .doneErr else s.callers j }
  /-- Lines 70-76: the caller's own login resolved; clear `authPromise`, then
  return the token or throw when none was stored. -/
  | ownResolved (s : AuthSys) (i l : Nat)
      (hi : s.callers i = .waitOwn l) (hs : s.settled l = some true) :
      AuthStep now s
        { s with callers := fun j =>
                   if j = i then
                     (if strTruthy s.authState.token then .doneOk else .doneErr)
                   else s.callers j
                 authPromise := none }

/-- Initial state of the single-flight scenario: no valid credential, no
stored promise, no login started, and an arbitrary number of callers all about
to execute `ensureAuthenticated()`. -/
def initAuthSys : AuthSys :=
  { authPromise := none
    authState := { token := none, expiresAt := none, isAuthenticated := false }
    callers := fun _ => .entry
    nextLogin := 0
    settled := fun _ => none }

/-- Inductive invariant of the single-flight system. -/
def SingleFlightInv (now : Int) (s : AuthSys) : Prop :=
  s.nextLogin ≤ 1 ∧
  (∀ l, s.authPromise = some l → l < s.nextLogin) ∧
  (s.authPromise = none → s.nextLogin = 0 ∨ s.settled 0 = some true) ∧
  (s.settled 0 = some true → isTokenValid now s.authState = true) ∧
  (∀ l, s.settled l ≠ none → l < s.nextLogin) ∧
  (∀ i l, s.callers i = .waitStale l ∨ s.callers i = .waitOwn l → l < s.nextLogin)

/-- State of the authenticator after one failed login attempt: the rejected
promise of login 0 is still stored in `authPromise` (the clearing assignment
at `auth.ts` line 70 is skipped when the await rethrows), the starter has
propagated the failure, and fresh callers are arriving. -/
def poisonedAuthSys : AuthSys :=
  { authPromise := some 0
    authState := { token := none, expiresAt := none, isAuthenticated := false }
    callers := fun i => if i = 0 then .doneErr else .entry
    nextLogin := 1
    settled := fun l => if l = 0 then some false else none }

/-- Intermediate state on the way to `poisonedAuthSys`: caller 0 has started
login 0 and awaits it. -/
def poisonedStep1 : AuthSys :=
  { authPromise := some 0
    authState := { token := none, expiresAt := none, isAuthenticated := false }
    callers := fun j => if j = 0 then .waitOwn 0 else .entry
    nextLogin := 1
    settled := fun _ => none }

/-- Intermediate state on the way to `poisonedAuthSys`: login 0 has failed. -/
def poisonedStep2 : AuthSys :=
  { authPromise := some 0
    authState := { token := none, expiresAt := none, isAuthenticated := false }
    callers := fun j => if j = 0 then .waitOwn 0 else .entry
    nextLogin := 1
    settled := fun l => if l = 0 then some false else none }

/-- Invariant of the poisoned system: the failed login is never cleared, no
new login ever starts, and every caller is either still to run, waiting on the
stale rejected promise, or has rethrown its failure. -/
def PoisonedInv (s : AuthSys) : Prop :=
  s.nextLogin = 1 ∧ s.authPromise = some 0 ∧ s.settled 0 = some false ∧
  (∀ l, l ≠ 0 → s.settled l = none) ∧
  (∀ i, s.callers i = .entry ∨ s.callers i = .waitStale 0 ∨ s.callers i = .doneErr)

theorem char_isDigit_isWhitespace_false (c : Char) (h : c.isDigit = true) :
    c.isWhitespace = false := by
  cases hw : c.isWhitespace
  · rfl
  · exfalso
    have hw2 := hw
    simp [Char.isWhitespace] at hw2
    have hcases : c = ' ' ∨ c = '\t' ∨ c = '\x0d' ∨ c = '\x0a' := by tauto
    rcases hcases with h1 | h1 | h1 | h1 <;> subst h1 <;> exact absurd h (by decide)

theorem dropWhile_isWhitespace_of_all_digits (l : List Char) (h : l.all Char.isDigit = true) :
    l.dropWhile Char.isWhitespace = l := by
  cases l with
  | nil => rfl
  | cons c t =>
    have hc : c.isDigit = true := by
      simp [List.all_cons] at h
      exact h.1
    rw [List.dropWhile_cons, char_isDigit_isWhitespace_false c hc]
    simp

theorem jsTrim_eq_self_of_all_digits (s : String) (h : s.data.all Char.isDigit = true) :
    jsTrim s = s := by
  unfold jsTrim
  rw [dropWhile_isWhitespace_of_all_digits s.data h]
  have h2 : s.data.reverse.all Char.isDigit = true := by
    rw [List.all_eq_true] at h ⊢
    intro c hc
    exact h c (List.mem_reverse.mp hc)
  rw [dropWhile_isWhitespace_of_all_digits _ h2, List.reverse_reverse]

theorem eight_indicators_ge8 :
    ∀ b1 b2 b3 b4 b5 b6 b7 b8 : Bool,
      (if b1 then 1 else 0) + (if b2 then 1 else 0) + (if b3 then 1 else 0) +
        (if b4 then 1 else 0) + (if b5 then 1 else 0) + (if b6 then 1 else 0) +
        (if b7 then 1 else 0) + (if b8 then 1 else 0) ≥ 8 →
      b1 = true ∧ b2 = true ∧ b3 = true ∧ b4 = true ∧
        b5 = true ∧ b6 = true ∧ b7 = true ∧ b8 = true := by
  intro b1 b2 b3 b4 b5 b6 b7 b8
  cases b1 <;> cases b2 <;> cases b3 <;> cases b4 <;>
    cases b5 <;> cases b6 <;> cases b7 <;> cases b8 <;> decide

/-- C1 counterexample: `fetch` does not always return the requested identifier.
When the OData item parsed from the response carries a `SapNote` field, the
returned record's id is that parsed identifier, not the requested one; the
same happens on the Playwright path when the envelope header carries a note
number. -/
theorem noteDetail_id_counterexample :
    (mapToSapNoteDetail { SapNote := some "9999999" } "1234567" none none).id = "9999999" ∧
    Option.map SapNoteDetail.id
        (getNoteWithPlaywright (.bodyEnvelope { header := { Number := some "9999999" } })
          "1234567" (.threw "tab unavailable") none none) = some "9999999" ∧
    ("9999999" : String) ≠ "1234567" := by
  refine ⟨rfl, rfl, by decide⟩

theorem strTruthy_true_isSome (a : Option String) (h : strTruthy a = true) :
    a.isSome = true := by
  cases a with
  | none => exact absurd h (by simp [strTruthy])
  | some s => rfl

theorem firstTruthyO_eq_none_forall (xs : List (Option String))
    (h : firstTruthyO xs = none) : ∀ x ∈ xs, strTruthy x = false := by
  induction xs with
  | nil =>
    intro x hx
    cases hx
  | cons y ys ih =>
    intro x hx
    by_cases hy : strTruthy y = true
    · simp only [firstTruthyO] at h
      rw [if_pos hy] at h
      rw [h] at hy
      exact absurd hy (by simp [strTruthy])
    · simp only [firstTruthyO] at h
      rw [if_neg hy] at h
      rcases List.mem_cons.mp hx with rfl | hx2
      · simpa using hy
      · exact ih h x hx2

theorem firstTruthyO_guard3 (a b c : Option String) :
    (strTruthy a || strTruthy b || strTruthy c) = (firstTruthyO [a, b, c]).isSome := by
  by_cases ha : strTruthy a = true
  · simp [firstTruthyO, ha, strTruthy_true_isSome a ha]
  · have ha2 : strTruthy a = false := by simpa using ha
    by_cases hb : strTruthy b = true
    · simp [firstTruthyO, ha2, hb, strTruthy_true_isSome b hb]
    · have hb2 : strTruthy b = false := by simpa using hb
      by_cases hc : strTruthy c = true
      · simp [firstTruthyO, ha2, hb2, hc, strTruthy_true_isSome c hc]
      · have hc2 : strTruthy c = false := by simpa using hc
        simp [firstTruthyO, ha2, hb2, hc2]

theorem firstTruthyD_eq_getD (xs : List (Option String)) (dflt : String) :
    firstTruthyD xs dflt = (firstTruthyO xs).getD dflt := by
  unfold firstTruthyD
  cases firstTruthyO xs <;> rfl

/-- C1 (corrected): on every construction path of a detail record, the id
field equals the identifier discovered while parsing the response - the first
present, non-empty field of the alias chain the code consults
(`SapNote`/`Id`/`id` for the OData item, `SapNote`/`id`/`noteId` for the raw
JSON body, `SapNote`/`id` for the generic Playwright branches, the header
`Number` for the envelope branches) - whenever one was discovered, and equals
the requested identifier exactly when the parse discovered none (always so for
the HTML and DOM-heuristic paths, which consult no identifier field).  The
final conjunct states this end-to-end for `getNoteWithPlaywright`. -/
theorem noteDetail_id_resolution :
    (∀ item noteId csm cvm,
      (firstTruthyO [item.SapNote, item.Id, item.id] = none →
        (mapToSapNoteDetail item noteId csm cvm).id = noteId) ∧
      (∀ s, firstTruthyO [item.SapNote, item.Id, item.id] = some s →
        (mapToSapNoteDetail item noteId csm cvm).id = s)) ∧
    (∀ te noteId csm cvm, (parseHtmlForNoteDetail te noteId csm cvm).id = noteId) ∧
    (∀ j rt noteId csm cvm hte hsm hvm d,
      parseRawNoteDetail (some j) rt noteId csm cvm hte hsm hvm = some d →
      (firstTruthyO [j.SapNote, j.id, j.noteId] = none → d.id = noteId) ∧
      (∀ s, firstTruthyO [j.SapNote, j.id, j.noteId] = some s → d.id = s)) ∧
    (∀ rt noteId csm cvm hte hsm hvm d,
      parseRawNoteDetail none rt noteId csm cvm hte hsm hvm = some d → d.id = noteId) ∧
    (∀ e noteId csm cvm,
      (firstTruthyO [e.header.Number] = none →
        (buildNoteDetailFromEnvelope e noteId csm cvm).id = noteId) ∧
      (∀ s, firstTruthyO [e.header.Number] = some s →
        (buildNoteDetailFromEnvelope e noteId csm cvm).id = s)) ∧
    (∀ j noteId csm cvm,
      (firstTruthyO [j.SapNote, j.id] = none →
        (buildNoteDetailFromGenericJson j noteId csm cvm).id = noteId) ∧
      (∀ s, firstTruthyO [j.SapNote, j.id] = some s →
        (buildNoteDetailFromGenericJson j noteId csm cvm).id = s)) ∧
    (∀ j noteId csm cvm,
      (firstTruthyO [j.SapNote, j.id] = none →
        (buildNoteDetailFromGenericJsonHtml j noteId csm cvm).id = noteId) ∧
      (∀ s, firstTruthyO [j.SapNote, j.id] = some s →
        (buildNoteDetailFromGenericJsonHtml j noteId csm cvm).id = s)) ∧
    (∀ t su co noteId csm cvm, (buildNoteDetailFromHtmlEval t su co noteId csm cvm).id = noteId) ∧
    (∀ pc noteId tab csm cvm d, getNoteWithPlaywright pc noteId tab csm cvm = some d →
      d.id = (discoveredId pc).getD noteId) := by
  have henhid : ∀ nd tab, (enhanceWithCvssFromTab nd tab).id = nd.id := by
    intro nd tab
    cases tab with
    | ok s v =>
      by_cases hc : (strTruthy nd.cvssScore && strTruthy nd.cvssVector) = true
      · simp [enhanceWithCvssFromTab, hc]
      · by_cases hd : (strTruthy s || strTruthy v) = true
        · simp [enhanceWithCvssFromTab, hc, hd]
        · simp [enhanceWithCvssFromTab, hc, hd]
    | threw msg =>
      by_cases hc : (strTruthy nd.cvssScore && strTruthy nd.cvssVector) = true <;>
        simp [enhanceWithCvssFromTab, hc]
  refine ⟨?_, ?_, ?_, ?_, ?_, ?_, ?_, ?_, ?_⟩
  · intro item noteId csm cvm
    constructor
    · intro h
      simp [mapToSapNoteDetail, firstTruthyD_eq_getD, h]
    · intro s h
      simp [mapToSapNoteDetail, firstTruthyD_eq_getD, h]
  · intro te noteId csm cvm
    simp [parseHtmlForNoteDetail]
  · intro j rt noteId csm cvm hte hsm hvm d hd
    constructor
    · intro hnone
      have ha : strTruthy j.SapNote = false :=
        firstTruthyO_eq_none_forall _ hnone _ (by simp)
      have hb : strTruthy j.id = false :=
        firstTruthyO_eq_none_forall _ hnone _ (by simp)
      have hc : strTruthy j.noteId = false :=
        firstTruthyO_eq_none_forall _ hnone _ (by simp)
      simp only [parseRawNoteDetail, ha, hb, hc, Bool.or_self, Bool.false_or,
        Bool.false_eq_true, if_false] at hd
      split at hd
      · split at hd
        · simp only [Option.some.injEq] at hd
          subst hd
          rfl
        · simp only [Option.some.injEq] at hd
          subst hd
          simp [parseHtmlForNoteDetail]
      · simp only [Option.some.injEq] at hd
        subst hd
        simp [parseHtmlForNoteDetail]
    · intro s hsome
      have hg : (strTruthy j.SapNote || strTruthy j.id || strTruthy j.noteId) = true := by
        rw [firstTruthyO_guard3, hsome]
        rfl
      simp only [parseRawNoteDetail, hg, if_true] at hd
      simp only [Option.some.injEq] at hd
      subst hd
      simp [firstTruthyD_eq_getD, hsome]
  · intro rt noteId csm cvm hte hsm hvm d hd
    simp only [parseRawNoteDetail] at hd
    split at hd
    · split at hd
      · simp only [Option.some.injEq] at hd
        subst hd
        rfl
      · simp only [Option.some.injEq] at hd
        subst hd
        simp [parseHtmlForNoteDetail]
    · simp only [Option.some.injEq] at hd
      subst hd
      simp [parseHtmlForNoteDetail]
  · intro e noteId csm cvm
    constructor
    · intro h
      simp [buildNoteDetailFromEnvelope, firstTruthyD_eq_getD, h]
    · intro s h
      simp [buildNoteDetailFromEnvelope, firstTruthyD_eq_getD, h]
  · intro j noteId csm cvm
    constructor
    · intro h
      simp [buildNoteDetailFromGenericJson, firstTruthyD_eq_getD, h]
    · intro s h
      simp [buildNoteDetailFromGenericJson, firstTruthyD_eq_getD, h]
  · intro j noteId csm cvm
    constructor
    · intro h
      simp [buildNoteDetailFromGenericJsonHtml, firstTruthyD_eq_getD, h]
    · intro s h
      simp [buildNoteDetailFromGenericJsonHtml, firstTruthyD_eq_getD, h]
  · intro t su co noteId csm cvm
    simp [buildNoteDetailFromHtmlEval]
  · intro pc noteId tab csm cvm d hd
    cases pc with
    | bodyEnvelope e =>
      simp only [getNoteWithPlaywright] at hd
      split at hd
      · simp only [Option.some.injEq] at hd
        subst hd
        rw [henhid]
        simp [buildNoteDetailFromEnvelope, firstTruthyD_eq_getD, discoveredId]
      · simp only [Option.some.injEq] at hd
        subst hd
        simp [buildNoteDetailFromEnvelope, firstTruthyD_eq_getD, discoveredId]
    | bodyGeneric j =>
      simp only [getNoteWithPlaywright, Option.some.injEq] at hd
      subst hd
      rw [henhid]
      simp [buildNoteDetailFromGenericJson, firstTruthyD_eq_getD, discoveredId]
    | htmlEnvelope e =>
      simp only [getNoteWithPlaywright] at hd
      split at hd
      · simp only [Option.some.injEq] at hd
        subst hd
        rw [henhid]
        simp [buildNoteDetailFromEnvelope, firstTruthyD_eq_getD, discoveredId]
      · simp only [Option.some.injEq] at hd
        subst hd
        simp [buildNoteDetailFromEnvelope, firstTruthyD_eq_getD, discoveredId]
    | htmlGeneric j =>
      simp only [getNoteWithPlaywright, Option.some.injEq] at hd
      subst hd
      rw [henhid]
      simp [buildNoteDetailFromGenericJsonHtml, firstTruthyD_eq_getD, discoveredId]
    | htmlEval found t su co =>
      simp only [getNoteWithPlaywright] at hd
      split at hd
      · simp only [Option.some.injEq] at hd
        subst hd
        rw [henhid]
        simp [buildNoteDetailFromHtmlEval, discoveredId]
      · exact absurd hd (by simp)
    | noContent => exact absurd hd (by simp [getNoteWithPlaywright])

/-- C1 witness: with no identifier field in the parsed item the requested
identifier is returned, and a discovered `SapNote` identifier wins over the
requested one. -/
theorem noteDetail_id_resolution_witness :
    (mapToSapNoteDetail {} "1234567" none none).id = "1234567" ∧
    (mapToSapNoteDetail { SapNote := some "9999999" } "1234567" none none).id = "9999999" :=
  ⟨(noteDetail_id_resolution.1 {} "1234567" none none).1 rfl,
    (noteDetail_id_resolution.1 { SapNote := some "9999999" } "1234567" none none).2
      "9999999" (by decide)⟩

/-- C4 (code bug): after `invalidateAuth()` the next `ensureAuthenticated()`
call does not force a fresh login when the on-disk token cache still holds an
unexpired credential: `authenticate()` adopts the cached credential (the very
one whose rejection triggered the invalidation) without any browser login,
contradicting the doc comment of `invalidateAuth` (auth.ts line 80,
force fresh login). -/
theorem invalidateAuth_next_call_adopts_cache :
    isTokenValid 1700000000000
        (invalidateAuth
          { token := some "cookieA=1; cookieB=2", expiresAt := some 1700007200000,
            isAuthenticated := true }) = false ∧
    authenticateStart 1700000000000
        (some { access_token := some "cookieA=1; cookieB=2", expiresAt := some 1700007200000 }) =
      .adoptCached "cookieA=1; cookieB=2" 1700007200000 ∧
    nextCallStartsFreshLogin 1700000000000
        (invalidateAuth
          { token := some "cookieA=1; cookieB=2", expiresAt := some 1700007200000,
            isAuthenticated := true })
        (some { access_token := some "cookieA=1; cookieB=2", expiresAt := some 1700007200000 }) =
      false := by
  refine ⟨rfl, ?_, ?_⟩ <;> decide

/-- C5 counterexample: a browser-launch failure whose message is not a
resource-exhaustion error is not fatal immediately: a second launch attempt is
made after a fixed 1 second delay (and here succeeds), instead of the failure
being rethrown with no further attempt. -/
theorem browserLaunch_counterexample :
    isResourceExhaustion "EACCES: Permission denied" = false ∧
    browserLaunch (fun n => if n = 1 then some "EACCES: Permission denied" else none) =
      (.ok (), [1000]) ∧
    browserLaunch (fun n => if n = 1 then some "EACCES: Permission denied" else none) ≠
      (.error "EACCES: Permission denied", []) := by
  refine ⟨by decide, rfl, ?_⟩
  have e : browserLaunch (fun n => if n = 1 then some "EACCES: Permission denied" else none) =
      (.ok (), [1000]) := rfl
  rw [e]
  intro h
  exact Except.noConfusion (congrArg Prod.fst h)

/-- C5 (corrected): browser launch is attempted at most 3 times; after a
failed attempt 1 or 2 the loop retries regardless of the error class, sleeping
`2^attempt` seconds (2s, then 4s) when the error is a resource-exhaustion
error and 1s otherwise; only the third attempt's failure is fatal.  An 8s
backoff delay is unreachable. -/
theorem browserLaunch_retry_schedule (outcome : Nat → Option String) :
    (outcome 1 = none → browserLaunch outcome = (.ok (), [])) ∧
    (∀ m1, outcome 1 = some m1 →
      (outcome 2 = none → browserLaunch outcome =
        (.ok (), [if isResourceExhaustion m1 then 2000 else 1000])) ∧
      (∀ m2, outcome 2 = some m2 →
        (outcome 3 = none → browserLaunch outcome =
          (.ok (), [if isResourceExhaustion m1 then 2000 else 1000,
                    if isResourceExhaustion m2 then 4000 else 1000])) ∧
        (∀ m3, outcome 3 = some m3 → browserLaunch outcome =
          (.error m3, [if isResourceExhaustion m1 then 2000 else 1000,
                       if isResourceExhaustion m2 then 4000 else 1000])))) := by
  refine ⟨?_, ?_⟩
  · intro h1
    simp [browserLaunch, launchFrom, h1]
  · intro m1 h1
    refine ⟨?_, ?_⟩
    · intro h2
      by_cases hr1 : isResourceExhaustion m1 = true <;>
        simp [browserLaunch, launchFrom, h1, h2, hr1]
    · intro m2 h2
      refine ⟨?_, ?_⟩
      · intro h3
        by_cases hr1 : isResourceExhaustion m1 = true <;>
          by_cases hr2 : isResourceExhaustion m2 = true <;>
            simp [browserLaunch, launchFrom, h1, h2, h3, hr1, hr2]
      · intro m3 h3
        by_cases hr1 : isResourceExhaustion m1 = true <;>
          by_cases hr2 : isResourceExhaustion m2 = true <;>
            by_cases hr3 : isResourceExhaustion m3 = true <;>
              simp [browserLaunch, launchFrom, h1, h2, h3, hr1, hr2, hr3]

/-- C5 witness: one resource-exhaustion failure then success gives exactly one
2 second backoff delay. -/
theorem browserLaunch_retry_schedule_witness :
    browserLaunch (fun n => if n = 1 then some "pthread_create failed" else none) =
      (.ok (), [2000]) := by
  have h := (browserLaunch_retry_schedule
    (fun n => if n = 1 then some "pthread_create failed" else none)).2
    "pthread_create failed" rfl
  have h2 := h.1 rfl
  simpa using h2

/-- C9 counterexample: a detail record carrying a severity score but no
vector, enhanced by a tab extraction that resolved only the vector, loses its
already-present score: the returned record has `cvssScore = none` although the
input had `cvssScore = some "8.1"`. -/
theorem enhanceWithCvssFromTab_counterexample :
    (enhanceWithCvssFromTab
        { id := "2744792", title := "t", summary := "s", content := "c", language := "EN",
          releaseDate := "d", component := none, priority := none, category := none,
          url := "u", cvssScore := some "8.1", cvssVector := none, affectedVersions := none }
        (.ok none (some "CVSS:3.0/AV:N/AC:L/PR:N/UI:N/S:U/C:H/I:H/A:H"))).cvssScore = none ∧
    (enhanceWithCvssFromTab
        { id := "2744792", title := "t", summary := "s", content := "c", language := "EN",
          releaseDate := "d", component := none, priority := none, category := none,
          url := "u", cvssScore := some "8.1", cvssVector := none, affectedVersions := none }
        (.ok none (some "CVSS:3.0/AV:N/AC:L/PR:N/UI:N/S:U/C:H/I:H/A:H"))).cvssVector =
      some "CVSS:3.0/AV:N/AC:L/PR:N/UI:N/S:U/C:H/I:H/A:H" ∧
    (none : Option String) ≠ some "8.1" := by
  refine ⟨rfl, rfl, by decide⟩

/-- C9 (corrected): `enhanceWithCvssFromTab` returns the record unchanged when
both severity fields are already present, and also when tab extraction yields
no truthy data or throws; but when at least one field is missing and the tab
extraction yields any truthy value, both severity fields are replaced wholesale
by the extraction results, so an already-present field can be overwritten
(even with `undefined`).  All fields other than the two severity fields are
always unchanged. -/
theorem enhanceWithCvssFromTab_spec (nd : SapNoteDetail) (tab : TabExtractOutcome) :
    (strTruthy nd.cvssScore = true → strTruthy nd.cvssVector = true →
      enhanceWithCvssFromTab nd tab = nd) ∧
    (∀ s v, (strTruthy nd.cvssScore = false ∨ strTruthy nd.cvssVector = false) →
      tab = .ok s v → (strTruthy s = true ∨ strTruthy v = true) →
      enhanceWithCvssFromTab nd tab = { nd with cvssScore := s, cvssVector := v }) ∧
    (∀ s v, tab = .ok s v → strTruthy s = false → strTruthy v = false →
      enhanceWithCvssFromTab nd tab = nd) ∧
    (∀ msg, tab = .threw msg → enhanceWithCvssFromTab nd tab = nd) ∧
    ((enhanceWithCvssFromTab nd tab).id = nd.id ∧
      (enhanceWithCvssFromTab nd tab).title = nd.title ∧
      (enhanceWithCvssFromTab nd tab).summary = nd.summary ∧
      (enhanceWithCvssFromTab nd tab).content = nd.content ∧
      (enhanceWithCvssFromTab nd tab).language = nd.language ∧
      (enhanceWithCvssFromTab nd tab).releaseDate = nd.releaseDate ∧
      (enhanceWithCvssFromTab nd tab).component = nd.component ∧
      (enhanceWithCvssFromTab nd tab).priority = nd.priority ∧
      (enhanceWithCvssFromTab nd tab).category = nd.category ∧
      (enhanceWithCvssFromTab nd tab).url = nd.url ∧
      (enhanceWithCvssFromTab nd tab).affectedVersions = nd.affectedVersions) := by
  refine ⟨?_, ?_, ?_, ?_, ?_⟩
  · intro hs hv
    simp [enhanceWithCvssFromTab, hs, hv]
  · intro s v hmiss htab hdata
    subst htab
    have hcond : (strTruthy nd.cvssScore && strTruthy nd.cvssVector) = false := by
      rcases hmiss with h | h <;> simp [h]
    have hdata2 : (strTruthy s || strTruthy v) = true := by
      rcases hdata with h | h <;> simp [h]
    simp [enhanceWithCvssFromTab, hcond, hdata2]
  · intro s v htab hs hv
    subst htab
    simp [enhanceWithCvssFromTab, hs, hv]
  · intro msg htab
    subst htab
    simp [enhanceWithCvssFromTab]
  · cases tab with
    | ok s v =>
      by_cases hc : (strTruthy nd.cvssScore && strTruthy nd.cvssVector) = true
      · simp [enhanceWithCvssFromTab, hc]
      · by_cases hd : (strTruthy s || strTruthy v) = true
        · simp [enhanceWithCvssFromTab, hc, hd]
        · simp [enhanceWithCvssFromTab, hc, hd]
    | threw msg =>
      by_cases hc : (strTruthy nd.cvssScore && strTruthy nd.cvssVector) = true <;>
        simp [enhanceWithCvssFromTab, hc]

/-- C9 witness: with both severity fields present, the record is returned
unchanged even when the tab outcome would have carried data. -/
theorem enhanceWithCvssFromTab_spec_witness :
    enhanceWithCvssFromTab
        { id := "1", title := "t", summary := "s", content := "c", language := "EN",
          releaseDate := "d", component := none, priority := none, category := none,
          url := "u", cvssScore := some "8.1", cvssVector := some "CVSS:3.0/AV:N",
          affectedVersions := none }
        (.ok (some "5.0") none) =
      { id := "1", title := "t", summary := "s", content := "c", language := "EN",
        releaseDate := "d", component := none, priority := none, category := none,
        url := "u", cvssScore := some "8.1", cvssVector := some "CVSS:3.0/AV:N",
        affectedVersions := none } :=
  (enhanceWithCvssFromTab_spec _ _).1 (by decide) (by decide)

/-- C6 (confirmed): the severity vector produced by tab-based extraction is
all-or-nothing: when fewer than all 8 metric components were resolved from the
metric table the vector is absent, and whenever a vector is returned all 8
components were resolved and the string is the fully populated 8-component
CVSS 3.0 vector. -/
theorem severityVector_full_or_absent (proceed : Bool) (score : Option String)
    (cells : MetricCells) :
    (vectorComponentCount cells < 8 → (extractCvssFromPage proceed score cells).2 = none) ∧
    (∀ v, (extractCvssFromPage proceed score cells).2 = some v →
      vectorComponentCount cells = 8 ∧
      ∃ av ac pr ui sc cf ig avl,
        resolvedAV cells = some av ∧ resolvedAC cells = some ac ∧
        resolvedPR cells = some pr ∧ resolvedUI cells = some ui ∧
        resolvedS cells = some sc ∧ resolvedC cells = some cf ∧
        resolvedI cells = some ig ∧ resolvedA cells = some avl ∧
        v = "CVSS:3.0/AV:" ++ av ++ "/AC:" ++ ac ++ "/PR:" ++ pr ++ "/UI:" ++ ui ++
            "/S:" ++ sc ++ "/C:" ++ cf ++ "/I:" ++ ig ++ "/A:" ++ avl) := by
  constructor
  · intro hlt
    by_cases hp : proceed
    · simp [extractCvssFromPage, hp, buildCvssVector, Nat.not_le.mpr hlt]
    · simp [extractCvssFromPage, hp]
  · intro v hv
    by_cases hp : proceed
    · simp only [extractCvssFromPage, hp, Bool.not_true, Bool.false_eq_true, if_false] at hv
      unfold buildCvssVector at hv
      by_cases h8 : vectorComponentCount cells ≥ 8
      · rw [if_pos h8] at hv
        have h8u := h8
        unfold vectorComponentCount at h8u
        obtain ⟨b1, b2, b3, b4, b5, b6, b7, b8⟩ :=
          eight_indicators_ge8 (resolvedAV cells).isSome (resolvedAC cells).isSome
            (resolvedPR cells).isSome (resolvedUI cells).isSome (resolvedS cells).isSome
            (resolvedC cells).isSome (resolvedI cells).isSome (resolvedA cells).isSome h8u
        obtain ⟨av, hav⟩ := Option.isSome_iff_exists.mp b1
        obtain ⟨ac, hac⟩ := Option.isSome_iff_exists.mp b2
        obtain ⟨pr, hpr⟩ := Option.isSome_iff_exists.mp b3
        obtain ⟨ui, hui⟩ := Option.isSome_iff_exists.mp b4
        obtain ⟨sc, hsc⟩ := Option.isSome_iff_exists.mp b5
        obtain ⟨cf, hcf⟩ := Option.isSome_iff_exists.mp b6
        obtain ⟨ig, hig⟩ := Option.isSome_iff_exists.mp b7
        obtain ⟨avl, havl⟩ := Option.isSome_iff_exists.mp b8
        refine ⟨?_, av, ac, pr, ui, sc, cf, ig, avl, hav, hac, hpr, hui, hsc, hcf, hig, havl, ?_⟩
        · simp [vectorComponentCount, hav, hac, hpr, hui, hsc, hcf, hig, havl]
        · simp only [Option.some.injEq, hav, hac, hpr, hui, hsc, hcf, hig, havl,
            Option.getD_some] at hv
          exact hv.symm
      · rw [if_neg h8] at hv
        exact absurd hv (by simp)
    · simp [extractCvssFromPage, hp] at hv

/-- C6 witness: a metric table resolving only 7 of the 8 components (the
Availability row is missing) yields no vector at all. -/
theorem severityVector_full_or_absent_witness :
    (extractCvssFromPage true (some "9.8")
        { attackVector := some "Network", attackComplexity := some "Low",
          privilegesRequired := some "None", userInteraction := some "None",
          scope := some "Unchanged", confidentiality := some "High",
          integrity := some "High", availability := none }).2 = none :=
  (severityVector_full_or_absent true (some "9.8")
      { attackVector := some "Network", attackComplexity := some "Low",
        privilegesRequired := some "None", userInteraction := some "None",
        scope := some "Unchanged", confidentiality := some "High",
        integrity := some "High", availability := none }).1 (by decide)

/-- C7 (confirmed): when every strategy of the fetch cascade yields nothing
(throws or returns null), `getNote` returns null rather than throwing:
exhaustion is a terminal non-error outcome. -/
theorem getNote_exhausted_returns_null (pw raw : StrategyOutcome)
    (fbs : List StrategyOutcome)
    (hpw : ∀ n, pw ≠ .ok (some n)) (hraw : ∀ n, raw ≠ .ok (some n))
    (hfbs : ∀ f ∈ fbs, ∀ n, f ≠ .ok (some n)) :
    getNote pw raw fbs = .ok none := by
  have hff : firstFallbackNote fbs = none := by
    induction fbs with
    | nil => rfl
    | cons f rest ih =>
      have hf := hfbs f (List.mem_cons_self f rest)
      have hrest : ∀ g ∈ rest, ∀ n, g ≠ .ok (some n) :=
        fun g hg => hfbs g (List.mem_cons_of_mem f hg)
      cases f with
      | error e => simpa [firstFallbackNote] using ih hrest
      | ok o =>
        cases o with
        | none => simpa [firstFallbackNote] using ih hrest
        | some n => exact absurd rfl (hf n)
  cases pw with
  | error e1 =>
    cases raw with
    | error e2 => simp [getNote, hff]
    | ok o2 =>
      cases o2 with
      | none => simp [getNote, hff]
      | some n2 => exact absurd rfl (hraw n2)
  | ok o1 =>
    cases o1 with
    | none =>
      cases raw with
      | error e2 => simp [getNote, hff]
      | ok o2 =>
        cases o2 with
        | none => simp [getNote, hff]
        | some n2 => exact absurd rfl (hraw n2)
    | some n1 => exact absurd rfl (hpw n1)

/-- C7 witness: a throwing Playwright strategy, a null raw strategy and three
fruitless fallback endpoints produce the null result. -/
theorem getNote_exhausted_returns_null_witness :
    getNote (.error "Playwright extraction failed") (.ok none)
      [.error "HTTP 404", .ok none, .error "HTTP 502"] = .ok none := by
  refine getNote_exhausted_returns_null _ _ _ ?_ ?_ ?_
  · intro n h
    exact Except.noConfusion h
  · intro n h
    exact Option.noConfusion (Except.ok.inj h)
  · intro f hf n
    have hf2 : f = .error "HTTP 404" ∨ f = .ok none ∨ f = .error "HTTP 502" := by
      simpa using hf
    rcases hf2 with rfl | rfl | rfl
    · intro h
      exact Except.noConfusion h
    · intro h
      exact Option.noConfusion (Except.ok.inj h)
    · intro h
      exact Except.noConfusion h

/-- C8 (confirmed): for a query of 6 to 8 pure digits, when the primary search
strategy fails and the direct fetch succeeds, `searchNotes` returns a
one-element response whose single result carries the query as id, with
`totalResults = 1` and the original query echoed. -/
theorem searchNotes_noteid_fallback (query err : String) (note : SapNoteDetail)
    (internal : Except String (List SapNoteResult))
    (hdig : query.data.all Char.isDigit = true)
    (hlen6 : 6 ≤ query.data.length) (hlen8 : query.data.length ≤ 8) :
    searchNotes query (.error err) (.ok (some note)) internal =
      .ok { results := [{ id := query,
                          title := note.title,
                          summary := note.summary,
                          language := note.language,
                          releaseDate := note.releaseDate,
                          component := note.component,
                          url := note.url }],
            totalResults := 1,
            query := query } := by
  have ht : jsTrim query = query := jsTrim_eq_self_of_all_digits query hdig
  have hl6 : 6 ≤ query.length := hlen6
  have hl8 : query.length ≤ 8 := hlen8
  simp [searchNotes, ht, testNoteIdPattern, hdig, hl6, hl8]

/-- C8 witness: the 7-digit query 2744792 falls through to the direct-fetch
single-result response. -/
theorem searchNotes_noteid_fallback_witness :
    searchNotes "2744792" (.error "Coveo API returned 500")
      (.ok (some { id := "2744792",
                   title := "Security update",
                   summary := "Fixes an issue",
                   content := "Body",
                   language := "EN",
                   releaseDate := "2019-01-01",
                   component := some "BC-SEC",
                   priority := none,
                   category := none,
                   url := noteUrlBase ++ "2744792",
                   cvssScore := none,
                   cvssVector := none,
                   affectedVersions := none }))
      (.ok []) =
    .ok { results := [{ id := "2744792",
                        title := "Security update",
                        summary := "Fixes an issue",
                        language := "EN",
                        releaseDate := "2019-01-01",
                        component := some "BC-SEC",
                        url := noteUrlBase ++ "2744792" }],
          totalResults := 1,
          query := "2744792" } :=
  searchNotes_noteid_fallback "2744792" "Coveo API returned 500" _ _
    (by decide) (by decide) (by decide)

/-- C10 (confirmed): every construction path of a detail record sets the url
field to the launchpad notes base URL followed by the requested identifier,
even on paths where the id field is taken from the parsed response;
tab-based enhancement preserves the url. -/
theorem noteDetail_url_requested :
    (∀ item noteId csm cvm, (mapToSapNoteDetail item noteId csm cvm).url = noteUrlBase ++ noteId) ∧
    (∀ te noteId csm cvm, (parseHtmlForNoteDetail te noteId csm cvm).url = noteUrlBase ++ noteId) ∧
    (∀ p rt noteId csm cvm hte hsm hvm d,
      parseRawNoteDetail p rt noteId csm cvm hte hsm hvm = some d →
      d.url = noteUrlBase ++ noteId) ∧
    (∀ e noteId csm cvm, (buildNoteDetailFromEnvelope e noteId csm cvm).url = noteUrlBase ++ noteId) ∧
    (∀ j noteId csm cvm, (buildNoteDetailFromGenericJson j noteId csm cvm).url = noteUrlBase ++ noteId) ∧
    (∀ j noteId csm cvm,
      (buildNoteDetailFromGenericJsonHtml j noteId csm cvm).url = noteUrlBase ++ noteId) ∧
    (∀ t su co noteId csm cvm,
      (buildNoteDetailFromHtmlEval t su co noteId csm cvm).url = noteUrlBase ++ noteId) ∧
    (∀ nd tab, (enhanceWithCvssFromTab nd tab).url = nd.url) ∧
    (∀ pc noteId tab csm cvm d, getNoteWithPlaywright pc noteId tab csm cvm = some d →
      d.url = noteUrlBase ++ noteId) := by
  have henh : ∀ nd tab, (enhanceWithCvssFromTab nd tab).url = nd.url := by
    intro nd tab
    cases tab with
    | ok s v =>
      by_cases hc : (strTruthy nd.cvssScore && strTruthy nd.cvssVector) = true
      · simp [enhanceWithCvssFromTab, hc]
      · by_cases hd : (strTruthy s || strTruthy v) = true
        · simp [enhanceWithCvssFromTab, hc, hd]
        · simp [enhanceWithCvssFromTab, hc, hd]
    | threw msg =>
      by_cases hc : (strTruthy nd.cvssScore && strTruthy nd.cvssVector) = true <;>
        simp [enhanceWithCvssFromTab, hc]
  have hraw : ∀ p rt noteId csm cvm hte hsm hvm d,
      parseRawNoteDetail p rt noteId csm cvm hte hsm hvm = some d →
      d.url = noteUrlBase ++ noteId := by
    intro p rt noteId csm cvm hte hsm hvm d hd
    cases p with
    | none =>
      simp only [parseRawNoteDetail] at hd
      split at hd
      · split at hd
        · simp only [Option.some.injEq] at hd
          subst hd
          rfl
        · simp only [Option.some.injEq] at hd
          subst hd
          simp [parseHtmlForNoteDetail]
      · simp only [Option.some.injEq] at hd
        subst hd
        simp [parseHtmlForNoteDetail]
    | some j =>
      simp only [parseRawNoteDetail] at hd
      by_cases hg : (strTruthy j.SapNote || strTruthy j.id || strTruthy j.noteId) = true
      · rw [if_pos hg] at hd
        simp only [Option.some.injEq] at hd
        subst hd
        rfl
      · rw [if_neg hg] at hd
        split at hd
        · split at hd
          · simp only [Option.some.injEq] at hd
            subst hd
            rfl
          · simp only [Option.some.injEq] at hd
            subst hd
            simp [parseHtmlForNoteDetail]
        · simp only [Option.some.injEq] at hd
          subst hd
          simp [parseHtmlForNoteDetail]
  refine ⟨?_, ?_, hraw, ?_, ?_, ?_, ?_, henh, ?_⟩
  · intro item noteId csm cvm
    simp [mapToSapNoteDetail]
  · intro te noteId csm cvm
    simp [parseHtmlForNoteDetail]
  · intro e noteId csm cvm
    simp [buildNoteDetailFromEnvelope]
  · intro j noteId csm cvm
    simp [buildNoteDetailFromGenericJson]
  · intro j noteId csm cvm
    simp [buildNoteDetailFromGenericJsonHtml]
  · intro t su co noteId csm cvm
    simp [buildNoteDetailFromHtmlEval]
  · intro pc noteId tab csm cvm d hd
    cases pc with
    | bodyEnvelope e =>
      simp only [getNoteWithPlaywright] at hd
      split at hd
      · simp only [Option.some.injEq] at hd
        subst hd
        rw [henh]
        simp [buildNoteDetailFromEnvelope]
      · simp only [Option.some.injEq] at hd
        subst hd
        simp [buildNoteDetailFromEnvelope]
    | bodyGeneric j =>
      simp only [getNoteWithPlaywright, Option.some.injEq] at hd
      subst hd
      rw [henh]
      simp [buildNoteDetailFromGenericJson]
    | htmlEnvelope e =>
      simp only [getNoteWithPlaywright] at hd
      split at hd
      · simp only [Option.some.injEq] at hd
        subst hd
        rw [henh]
        simp [buildNoteDetailFromEnvelope]
      · simp only [Option.some.injEq] at hd
        subst hd
        simp [buildNoteDetailFromEnvelope]
    | htmlGeneric j =>
      simp only [getNoteWithPlaywright, Option.some.injEq] at hd
      subst hd
      rw [henh]
      simp [buildNoteDetailFromGenericJsonHtml]
    | htmlEval found t su co =>
      simp only [getNoteWithPlaywright] at hd
      split at hd
      · simp only [Option.some.injEq] at hd
        subst hd
        rw [henh]
        simp [buildNoteDetailFromHtmlEval]
      · exact absurd hd (by simp)
    | noContent => exact absurd hd (by simp [getNoteWithPlaywright])

/-- C10 witness: the raw-note parser applied to an empty non-JSON body yields
a record whose url is the base URL plus the requested identifier. -/
theorem noteDetail_url_requested_witness :
    parseRawNoteDetail none "" "2744792" none none none none none =
      some (parseHtmlForNoteDetail none "2744792" none none) ∧
    (parseHtmlForNoteDetail none "2744792" none none).url = noteUrlBase ++ "2744792" :=
  ⟨rfl, noteDetail_url_requested.2.2.1 none "" "2744792" none none none none none
    (parseHtmlForNoteDetail none "2744792" none none) rfl⟩

theorem singleFlightInv_init (now : Int) : SingleFlightInv now initAuthSys := by
  refine ⟨by decide, ?_, ?_, ?_, ?_, ?_⟩
  · intro l h
    simp [initAuthSys] at h
  · intro _
    left
    rfl
  · intro h
    simp [initAuthSys] at h
  · intro l h
    simp [initAuthSys] at h
  · intro i l h
    rcases h with h | h <;> simp [initAuthSys] at h

theorem singleFlightInv_step (now : Int) {s s' : AuthSys} (hstep : AuthStep now s s')
    (hInv : SingleFlightInv now s) : SingleFlightInv now s' := by
  obtain ⟨h1, h2, h3, h4, h5, h6⟩ := hInv
  cases hstep with
  | observeInFlight i l hi hap =>
    refine ⟨h1, h2, h3, h4, h5, ?_⟩
    intro i' l' hpc
    simp only [] at hpc
    by_cases hii : i' = i
    · subst hii
      rw [if_pos rfl] at hpc
      rcases hpc with hpc | hpc
      · injection hpc with h
        subst h
        exact h2 l hap
      · exact CallerPC.noConfusion hpc
    · rw [if_neg hii] at hpc
      exact h6 i' l' hpc
  | returnValid i hi hap hv =>
    refine ⟨h1, h2, h3, h4, h5, ?_⟩
    intro i' l' hpc
    simp only [] at hpc
    by_cases hii : i' = i
    · subst hii
      rw [if_pos rfl] at hpc
      rcases hpc with hpc | hpc <;> exact CallerPC.noConfusion hpc
    · rw [if_neg hii] at hpc
      exact h6 i' l' hpc
  | startLogin i hi hap hv =>
    have h0 : s.nextLogin = 0 := by
      rcases h3 hap with h | h
      · exact h
      · exact absurd (h4 h) (by simp [hv])
    refine ⟨?_, ?_, ?_, ?_, ?_, ?_⟩
    · simp only []
      omega
    · intro l' hap'
      simp only [] at hap' ⊢
      injection hap' with h
      omega
    · intro hap'
      simp only [] at hap'
      exact Option.noConfusion hap'
    · intro hs0
      simp only [] at hs0
      exact h4 hs0
    · intro l' hl'
      simp only [] at hl' ⊢
      exact Nat.lt_succ_of_lt (h5 l' hl')
    · intro i' l' hpc
      simp only [] at hpc ⊢
      by_cases hii : i' = i
      · subst hii
        rw [if_pos rfl] at hpc
        rcases hpc with hpc | hpc
        · exact CallerPC.noConfusion hpc
        · injection hpc with h
          omega
      · rw [if_neg hii] at hpc
        exact Nat.lt_succ_of_lt (h6 i' l' hpc)
  | settleSuccess l tok exp hl hs hv =>
    refine ⟨h1, h2, ?_, ?_, ?_, h6⟩
    · intro hap
      simp only [] at hap
      rcases h3 hap with h | h
      · exact absurd hl (by omega)
      · right
        simp only []
        by_cases h0l : (0 : Nat) = l
        · rw [if_pos h0l]
        · rw [if_neg h0l]
          exact h
    · intro _
      exact hv
    · intro l' hl'
      simp only [] at hl' ⊢
      by_cases hll : l' = l
      · subst hll
        exact hl
      · rw [if_neg hll] at hl'
        exact h5 l' hl'
  | settleFailure l hl hs =>
    have hl0 : l = 0 := by omega
    refine ⟨h1, h2, ?_, ?_, ?_, h6⟩
    · intro hap
      simp only [] at hap
      rcases h3 hap with h | h
      · exact absurd hl (by omega)
      · subst hl0
        rw [hs] at h
        exact Option.noConfusion h
    · intro h0
      simp only [] at h0
      subst hl0
      rw [if_pos rfl] at h0
      simp at h0
    · intro l' hl'
      simp only [] at hl' ⊢
      by_cases hll : l' = l
      · subst hll
        exact hl
      · rw [if_neg hll] at hl'
        exact h5 l' hl'
  | staleRejected i l hi hs =>
    refine ⟨h1, h2, h3, h4, h5, ?_⟩
    intro i' l' hpc
    simp only [] at hpc
    by_cases hii : i' = i
    · subst hii
      rw [if_pos rfl] at hpc
      rcases hpc with hpc | hpc <;> exact CallerPC.noConfusion hpc
    · rw [if_neg hii] at hpc
      exact h6 i' l' hpc
  | staleResolvedValid i l hi hs hv =>
    refine ⟨h1, h2, h3, h4, h5, ?_⟩
    intro i' l' hpc
    simp only [] at hpc
    by_cases hii : i' = i
    · subst hii
      rw [if_pos rfl] at hpc
      rcases hpc with hpc | hpc <;> exact CallerPC.noConfusion hpc
    · rw [if_neg hii] at hpc
      exact h6 i' l' hpc
  | staleResolvedInvalid i l hi hs hv =>
    exfalso
    have hlt : l < s.nextLogin := h6 i l (Or.inl hi)
    have hl0 : l = 0 := by omega
    subst hl0
    exact absurd (h4 hs) (by simp [hv])
  | ownRejected i l hi hs =>
    refine ⟨h1, h2, h3, h4, h5, ?_⟩
    intro i' l' hpc
    simp only [] at hpc
    by_cases hii : i' = i
    · subst hii
      rw [if_pos rfl] at hpc
      rcases hpc with hpc | hpc <;> exact CallerPC.noConfusion hpc
    · rw [if_neg hii] at hpc
      exact h6 i' l' hpc
  | ownResolved i l hi hs =>
    have hlt : l < s.nextLogin := h6 i l (Or.inr hi)
    have hl0 : l = 0 := by omega
    refine ⟨h1, ?_, ?_, h4, h5, ?_⟩
    · intro l' hap'
      simp only [] at hap'
      exact Option.noConfusion hap'
    · intro _
      right
      subst hl0
      exact hs
    · intro i' l' hpc
      simp only [] at hpc
      by_cases hii : i' = i
      · subst hii
        rw [if_pos rfl] at hpc
        rcases hpc with hpc | hpc <;>
          · split at hpc <;> exact CallerPC.noConfusion hpc
      · rw [if_neg hii] at hpc
        exact h6 i' l' hpc

theorem singleFlightInv_reachable (now : Int) (s : AuthSys)
    (h : Relation.ReflTransGen (AuthStep now) initAuthSys s) : SingleFlightInv now s := by
  induction h with
  | refl => exact singleFlightInv_init now
  | tail _ hstep ih => exact singleFlightInv_step now hstep ih

/-- C2 (confirmed): in every interleaving of concurrent `ensureAuthenticated`
calls issued while no valid credential exists, at most one login flow is in
flight at any time, and a step that starts a new login can only occur when no
login is in flight.  The model holds the clock fixed over the interleaving and
assumes a successful login installs a credential that is valid at that moment
(true for a fresh login whenever `maxJwtAgeH` exceeds the 5 minute buffer, and
for an adopted cached credential by the cache validity check). -/
theorem ensureAuthenticated_single_flight (now : Int) (s : AuthSys)
    (h : Relation.ReflTransGen (AuthStep now) initAuthSys s) :
    (∀ l1 l2, InFlight s l1 → InFlight s l2 → l1 = l2) ∧
    (∀ s', AuthStep now s s' → s.nextLogin < s'.nextLogin → ∀ l, ¬ InFlight s l) := by
  obtain ⟨h1, h2, h3, h4, h5, h6⟩ := singleFlightInv_reachable now s h
  constructor
  · intro l1 l2 hf1 hf2
    obtain ⟨hl1, _⟩ := hf1
    obtain ⟨hl2, _⟩ := hf2
    omega
  · intro s' hstep hgrow l hInF
    obtain ⟨hl, hset⟩ := hInF
    cases hstep with
    | observeInFlight i l0 hi hap => exact absurd hgrow (by simp)
    | returnValid i hi hap hv => exact absurd hgrow (by simp)
    | startLogin i hi hap hv =>
      rcases h3 hap with h0 | h0
      · omega
      · have : l = 0 := by omega
        subst this
        rw [hset] at h0
        exact Option.noConfusion h0
    | settleSuccess l0 tok exp hl0 hs0 hv => exact absurd hgrow (by simp)
    | settleFailure l0 hl0 hs0 => exact absurd hgrow (by simp)
    | staleRejected i l0 hi hs0 => exact absurd hgrow (by simp)
    | staleResolvedValid i l0 hi hs0 hv => exact absurd hgrow (by simp)
    | staleResolvedInvalid i l0 hi hs0 hv =>
      have hlt : l0 < s.nextLogin := h6 i l0 (Or.inl hi)
      have hl00 : l0 = 0 := by omega
      subst hl00
      exact absurd (h4 hs0) (by simp [hv])
    | ownRejected i l0 hi hs0 => exact absurd hgrow (by simp)
    | ownResolved i l0 hi hs0 => exact absurd hgrow (by simp)

/-- C2 witness: at the initial state the first caller can start a login, and
since that step grows the login counter, no login was in flight before it. -/
theorem ensureAuthenticated_single_flight_witness : ¬ InFlight initAuthSys 0 :=
  (ensureAuthenticated_single_flight 0 initAuthSys Relation.ReflTransGen.refl).2
    _ (AuthStep.startLogin initAuthSys 0 rfl rfl rfl) (by decide) 0

theorem poisonedInv_step (now : Int) {s s' : AuthSys} (hstep : AuthStep now s s')
    (hInv : PoisonedInv s) : PoisonedInv s' := by
  obtain ⟨h1, h2, h3, h4, h5⟩ := hInv
  cases hstep with
  | observeInFlight i l hi hap =>
    have hl0 : l = 0 := by
      rw [h2] at hap
      injection hap with h
      omega
    subst hl0
    refine ⟨h1, h2, h3, h4, ?_⟩
    intro i'
    simp only []
    by_cases hii : i' = i
    · subst hii
      rw [if_pos rfl]
      right
      left
      rfl
    · rw [if_neg hii]
      exact h5 i'
  | returnValid i hi hap =>
    rw [h2] at hap
    exact Option.noConfusion hap
  | startLogin i hi hap hv =>
    rw [h2] at hap
    exact Option.noConfusion hap
  | settleSuccess l tok exp hl hs hv =>
    have hl0 : l = 0 := by omega
    subst hl0
    rw [h3] at hs
    exact Option.noConfusion hs
  | settleFailure l hl hs =>
    have hl0 : l = 0 := by omega
    subst hl0
    rw [h3] at hs
    exact Option.noConfusion hs
  | staleRejected i l hi hs =>
    refine ⟨h1, h2, h3, h4, ?_⟩
    intro i'
    simp only []
    by_cases hii : i' = i
    · subst hii
      rw [if_pos rfl]
      right
      right
      rfl
    · rw [if_neg hii]
      exact h5 i'
  | staleResolvedValid i l hi hs hv =>
    have hl0 : l = 0 := by
      rcases h5 i with h | h | h <;> rw [hi] at h
      · exact CallerPC.noConfusion h
      · exact CallerPC.waitStale.inj h
      · exact CallerPC.noConfusion h
    subst hl0
    rw [h3] at hs
    simp at hs
  | staleResolvedInvalid i l hi hs hv =>
    have hl0 : l = 0 := by
      rcases h5 i with h | h | h <;> rw [hi] at h
      · exact CallerPC.noConfusion h
      · exact CallerPC.waitStale.inj h
      · exact CallerPC.noConfusion h
    subst hl0
    rw [h3] at hs
    simp at hs
  | ownRejected i l hi hs =>
    rcases h5 i with h | h | h <;> rw [hi] at h <;> exact CallerPC.noConfusion h
  | ownResolved i l hi hs =>
    rcases h5 i with h | h | h <;> rw [hi] at h <;> exact CallerPC.noConfusion h

/-- C3 (code bug): a failed login attempt poisons the authenticator.  The
poisoned state is reachable from the initial state (one caller starts a login,
the login fails, the starter rethrows).  From it, in every continuation, no
fresh login is ever started (the login counter stays at 1) and every later
`ensureAuthenticated` call can only end by rethrowing the stored failure:
`authPromise` is never cleared on failure, so the claimed fresh attempt on the
next call never happens. -/
theorem ensureAuthenticated_poisoned_after_failure (now : Int) (s' : AuthSys)
    (h : Relation.ReflTransGen (AuthStep now) poisonedAuthSys s') :
    Relation.ReflTransGen (AuthStep now) initAuthSys poisonedAuthSys ∧
    s'.nextLogin = 1 ∧
    (∀ i, s'.callers i = .entry ∨ s'.callers i = .waitStale 0 ∨ s'.callers i = .doneErr) := by
  have hreach : Relation.ReflTransGen (AuthStep now) initAuthSys poisonedAuthSys := by
    have step1 : AuthStep now initAuthSys poisonedStep1 :=
      AuthStep.startLogin initAuthSys 0 rfl rfl rfl
    have step2 : AuthStep now poisonedStep1 poisonedStep2 :=
      AuthStep.settleFailure poisonedStep1 0 (by decide) rfl
    have step3 : AuthStep now poisonedStep2
        { poisonedStep2 with
            callers := fun j => if j = 0 then .doneErr else poisonedStep2.callers j } :=
      AuthStep.ownRejected poisonedStep2 0 0 rfl rfl
    have hcallers : (fun j => if j = 0 then CallerPC.doneErr else poisonedStep2.callers j) =
        (fun i => if i = 0 then CallerPC.doneErr else CallerPC.entry) := by
      funext j
      by_cases hj : j = 0 <;> simp [hj, poisonedStep2]
    have heq :
        ({ poisonedStep2 with
            callers := fun j => if j = 0 then .doneErr else poisonedStep2.callers j } :
          AuthSys) = poisonedAuthSys := by
      rw [hcallers]
      rfl
    rw [heq] at step3
    exact Relation.ReflTransGen.head step1
      (Relation.ReflTransGen.head step2 (Relation.ReflTransGen.single step3))
  have hInv : PoisonedInv s' := by
    have hInit : PoisonedInv poisonedAuthSys := by
      refine ⟨rfl, rfl, rfl, ?_, ?_⟩
      · intro l hl
        simp [poisonedAuthSys, hl]
      · intro i
        by_cases hi : i = 0 <;> simp [poisonedAuthSys, hi]
    clear hreach
    induction h with
    | refl => exact hInit
    | tail _ hstep ih => exact poisonedInv_step now hstep ih
  exact ⟨hreach, hInv.1, hInv.2.2.2.2⟩

/-- C3 witness: the poisoned state itself (reachable, with one failed login)
already satisfies the conclusion. -/
theorem ensureAuthenticated_poisoned_after_failure_witness :
    poisonedAuthSys.nextLogin = 1 ∧ poisonedAuthSys.callers 1 = .entry :=
  ⟨(ensureAuthenticated_poisoned_after_failure 0 poisonedAuthSys
      Relation.ReflTransGen.refl).2.1,
    by decide⟩
